import Mathlib

/-!
Verification of the mantle `platform/conf` configuration layer.

This file gives a shallow embedding of the configuration data model and the
mutation operations of `platform/conf` (the `UserData` / `Conf` types, the
version-cascade Ignition parser dispatch in `Render`, and the per-variant
mutation routines `AddFile`, `AddSystemdUnit`, `AddSystemdUnitDropin`,
`CopyKeys`, `AddUserToGroups`), together with the byte-classification helpers
of the vendored `ignition/config/v2_2/cloudinit.go`.

Go pointer fields become `Option`; a nil-pointer dereference (a Go panic) is
modelled as `Option.none` in the result of the operation that would panic.
External library services (the per-version Ignition parsers, the CLC and
Butane transpilers, the cloud-config parser, JSON marshalling, the v3 merge
primitive) are not part of the repository; they are taken as parameters or
modelled from the specification, as marked on each such definition.
-/

/-- Drop-in override fragment of a systemd unit (name + contents). -/
structure SystemdDropin where
  name : String
  contents : String
deriving DecidableEq, Repr

/-- File entry of a legacy Ignition v1 config (`v1types.File`). -/
structure V1File where
  path : String
  contents : String
  mode : Nat
deriving DecidableEq, Repr

/-- Filesystem entry of a legacy Ignition v1 config (`v1types.Filesystem`).
The `Create` field is always nil in this code base and is omitted. -/
structure V1Filesystem where
  files : List V1File
  format : String
  device : String
deriving DecidableEq, Repr

/-- Systemd unit of an Ignition v1 / v2.0 config (`SystemdUnit`): `Enable`
is a plain boolean in these versions. -/
structure V2Unit where
  name : String
  contents : String := ""
  enable : Bool := false
  dropins : List SystemdDropin := []
deriving DecidableEq, Repr

/-- Systemd unit of an Ignition v2.1 to v2.3 config (`Unit`): `Enabled` is a
nullable boolean pointer in these versions. -/
structure V2xUnit where
  name : String
  contents : String := ""
  enabled : Option Bool := none
  dropins : List SystemdDropin := []
deriving DecidableEq, Repr

/-- Systemd unit of an Ignition v3.x config: `Contents` and `Enabled` are
nullable. -/
structure V3Unit where
  name : String
  contents : Option String := none
  enabled : Option Bool := none
  dropins : List SystemdDropin := []
deriving DecidableEq, Repr

/-- Passwd user of an Ignition v1 / v2.x config: name plus SSH key list. -/
structure V2User where
  name : String
  sshAuthorizedKeys : List String := []
deriving DecidableEq, Repr

/-- Passwd user of an Ignition v3.x config: name, SSH key list, group list. -/
structure V3User where
  name : String
  sshAuthorizedKeys : List String := []
  groups : List String := []
deriving DecidableEq, Repr

/-- File entry of an Ignition v2.x config: the contents hold the
dataurl-encoded source. -/
structure V2XFile where
  filesystem : String
  path : String
  contents : String
  mode : Nat
deriving DecidableEq, Repr

/-- File entry of an Ignition v3.x config: contents (dataurl-encoded source)
and mode are nullable. -/
structure V3File where
  path : String
  contents : Option String := none
  mode : Option Nat := none
deriving DecidableEq, Repr

/-- Legacy Ignition v1 config (`v1types.Config`): files live inside
filesystem entries. -/
structure V1Config where
  filesystems : List V1Filesystem := []
  units : List V2Unit := []
  users : List V2User := []
deriving DecidableEq, Repr

/-- Ignition v2.0 config (`v2types.Config`), restricted to the fields this
repository touches. -/
structure V2Config where
  files : List V2XFile := []
  units : List V2Unit := []
  users : List V2User := []
deriving DecidableEq, Repr

/-- Ignition v2.1 to v2.3 config (`v21types` / `v22types` / `v23types`
`Config`), restricted to the fields this repository touches. -/
structure V2xConfig where
  files : List V2XFile := []
  units : List V2xUnit := []
  users : List V2User := []
deriving DecidableEq, Repr

/-- Ignition v3.x config (`v3types` to `v33types` `Config`), restricted to
the fields this repository touches; `version` is the `Ignition.Version`
scalar. -/
structure V3Config where
  version : String := ""
  files : List V3File := []
  units : List V3Unit := []
  users : List V3User := []
deriving DecidableEq, Repr

/-- File entry of a coreos-cloudinit cloud-config (`cci.File`). -/
structure CCFile where
  content : String
  owner : String
  path : String
  rawFilePermissions : String
deriving DecidableEq, Repr

/-- Unit entry of a coreos-cloudinit cloud-config (`cci.Unit`). -/
structure CCUnit where
  name : String
  content : String := ""
  enable : Bool := false
  dropins : List SystemdDropin := []
deriving DecidableEq, Repr

/-- coreos-cloudinit cloud-config document (`cci.CloudConfig`), restricted
to the fields this repository touches. -/
structure CloudConfig where
  writeFiles : List CCFile := []
  units : List CCUnit := []
  sshAuthorizedKeys : List String := []
deriving DecidableEq, Repr

/-- The `Conf` struct of `platform/conf`: one optional slot per schema
variant, plus the raw script / multipart texts and the target user name.
Go nil pointers are `none`. -/
structure Conf where
  ignitionV1 : Option V1Config := none
  ignitionV2 : Option V2Config := none
  ignitionV21 : Option V2xConfig := none
  ignitionV22 : Option V2xConfig := none
  ignitionV23 : Option V2xConfig := none
  ignitionV3 : Option V3Config := none
  ignitionV31 : Option V3Config := none
  ignitionV32 : Option V3Config := none
  ignitionV33 : Option V3Config := none
  cloudconfig : Option CloudConfig := none
  script : String := ""
  multipartMime : String := ""
  user : String := ""
deriving DecidableEq, Repr

/-- The `kind` tag of a `UserData`, with the seven constants of the source. -/
inductive Kind where
  | kindEmpty
  | kindCloudConfig
  | kindIgnition
  | kindContainerLinuxConfig
  | kindScript
  | kindButane
  | kindMultipartMime
deriving DecidableEq, Repr

/-- The `UserData` struct: kind tag, raw text, pending SSH keys (an
`agent.Key` is modelled by its rendered string), and the user to create. -/
structure UserData where
  kind : Kind
  data : String := ""
  extraKeys : List String := []
  user : String := ""
deriving DecidableEq, Repr

/-- Constructor `Empty()`. -/
def UserData.emptyUD : UserData := { kind := .kindEmpty }

/-- Constructor `MultipartMimeConfig(data)`. -/
def MultipartMimeConfig (data : String) : UserData :=
  { kind := .kindMultipartMime, data := data }

/-- Constructor `ContainerLinuxConfig(data)`. -/
def ContainerLinuxConfig (data : String) : UserData :=
  { kind := .kindContainerLinuxConfig, data := data }

/-- Constructor `Ignition(data)`. -/
def IgnitionUD (data : String) : UserData :=
  { kind := .kindIgnition, data := data }

/-- Constructor `CloudConfig(data)` (named apart from the document type). -/
def CloudConfigUD (data : String) : UserData :=
  { kind := .kindCloudConfig, data := data }

/-- Constructor `Butane(data)`. -/
def Butane (data : String) : UserData :=
  { kind := .kindButane, data := data }

/-- Constructor `Script(data)`. -/
def Script (data : String) : UserData :=
  { kind := .kindScript, data := data }

/-- Prefix test on character lists (structural model of the Go
`strings.HasPrefix`). -/
def charsPrefix : List Char → List Char → Bool
  | [], _ => true
  | _ :: _, [] => false
  | p :: ps, c :: cs => p = c && charsPrefix ps cs

/-- Substring test on character lists (structural model of the Go
`strings.Contains`). -/
def charsContains (pat : List Char) : List Char → Bool
  | [] => charsPrefix pat []
  | c :: rest => charsPrefix pat (c :: rest) || charsContains pat rest

/-- `UserData.Contains` and the other substring tests of the source. -/
def containsSub (s pat : String) : Bool :=
  charsContains pat.toList s.toList

/-- `UserData.Subst`: string substitution returning a new `UserData`. -/
def UserData.Subst (u : UserData) (old new : String) : UserData :=
  { u with data := u.data.replace old new }

/-- `UserData.AddKey`: appends an SSH key, returning a new `UserData`. -/
def UserData.AddKey (u : UserData) (key : String) : UserData :=
  { u with extraKeys := u.extraKeys ++ [key] }

/-- `UserData.IsIgnitionCompatible`. -/
def UserData.IsIgnitionCompatible (u : UserData) : Bool :=
  u.kind = .kindIgnition || u.kind = .kindContainerLinuxConfig || u.kind = .kindButane

/-- Modelled from the external `dataurl.EncodeBytes` library call (not part
of this repository): an injective textual data-URL framing of the contents. -/
def dataurlEncode (s : String) : String := "data:," ++ s

/-- Modelled from the spec: the external per-version Ignition v3 merge
primitive (`v3.Merge` and its v3.1/v3.2/v3.3 counterparts, not part of this
repository). Per the MergeEngine contract, scalar fields are right-biased
(the overlay value wins) and repeating collection fields (file lists, unit
lists, user lists) are concatenated, never deduplicated or reordered. -/
def mergeV3Config (old new : V3Config) : V3Config :=
  { version := new.version
    files := old.files ++ new.files
    units := old.units ++ new.units
    users := old.users ++ new.users }

/-- `Conf.MergeV3`: replaces the stored v3.0 document with the merge of it
and `newConfig`. The source dereferences `c.ignitionV3` unconditionally, so
a `Conf` whose v3.0 slot is nil makes this panic: modelled as `none`. -/
def Conf.MergeV3 (c : Conf) (newConfig : V3Config) : Option Conf :=
  match c.ignitionV3 with
  | some old => some { c with ignitionV3 := some (mergeV3Config old newConfig) }
  | none => none

/-- `Conf.MergeV31`, with the same nil-dereference behaviour as `MergeV3`. -/
def Conf.MergeV31 (c : Conf) (newConfig : V3Config) : Option Conf :=
  match c.ignitionV31 with
  | some old => some { c with ignitionV31 := some (mergeV3Config old newConfig) }
  | none => none

/-- `Conf.MergeV32`, with the same nil-dereference behaviour as `MergeV3`. -/
def Conf.MergeV32 (c : Conf) (newConfig : V3Config) : Option Conf :=
  match c.ignitionV32 with
  | some old => some { c with ignitionV32 := some (mergeV3Config old newConfig) }
  | none => none

/-- `Conf.MergeV33`, with the same nil-dereference behaviour as `MergeV3`. -/
def Conf.MergeV33 (c : Conf) (newConfig : V3Config) : Option Conf :=
  match c.ignitionV33 with
  | some old => some { c with ignitionV33 := some (mergeV3Config old newConfig) }
  | none => none

/-- The fixed root device of `addFileV1`. -/
def rootDevice : String := "/dev/disk/by-partlabel/ROOT"

/-- `Conf.addFileV1`: the first file call lazily creates the single default
root filesystem; with an existing first filesystem bound to another device
the source panics (modelled `none`); otherwise the file is appended to the
first filesystem's file list. -/
def Conf.addFileV1 (c : Conf) (path filesystem contents : String) (mode : Nat) : Option Conf :=
  match c.ignitionV1 with
  | none => none
  | some g =>
    let file : V1File := { path := path, contents := contents, mode := mode }
    match g.filesystems with
    | [] =>
      some { c with ignitionV1 := some { g with filesystems :=
        [{ files := [file], format := "ext4", device := rootDevice }] } }
    | fs0 :: rest =>
      if fs0.device = rootDevice then
        some { c with ignitionV1 := some { g with filesystems :=
          { fs0 with files := fs0.files ++ [file] } :: rest } }
      else
        none

/-- `Conf.addFileV2`: appends a file entry with dataurl-encoded contents.
The source's `url.Parse` of a freshly encoded data URL cannot fail; that
dead warning branch is not modelled. -/
def Conf.addFileV2 (c : Conf) (path filesystem contents : String) (mode : Nat) : Option Conf :=
  match c.ignitionV2 with
  | none => none
  | some g =>
    some { c with ignitionV2 := some { g with files := g.files ++
      [{ filesystem := filesystem, path := path,
         contents := dataurlEncode contents, mode := mode }] } }

/-- Appends a v2.1/v2.2/v2.3-style file entry (shared body of `addFileV21`,
`addFileV22`, `addFileV23`, which are textually identical in the source). -/
def appendFileV2x (g : V2xConfig) (path filesystem contents : String) (mode : Nat) : V2xConfig :=
  { g with files := g.files ++
    [{ filesystem := filesystem, path := path,
       contents := dataurlEncode contents, mode := mode }] }

/-- `Conf.addFileV21`. -/
def Conf.addFileV21 (c : Conf) (path filesystem contents : String) (mode : Nat) : Option Conf :=
  match c.ignitionV21 with
  | none => none
  | some g => some { c with ignitionV21 := some (appendFileV2x g path filesystem contents mode) }

/-- `Conf.addFileV22`. -/
def Conf.addFileV22 (c : Conf) (path filesystem contents : String) (mode : Nat) : Option Conf :=
  match c.ignitionV22 with
  | none => none
  | some g => some { c with ignitionV22 := some (appendFileV2x g path filesystem contents mode) }

/-- `Conf.addFileV23`. -/
def Conf.addFileV23 (c : Conf) (path filesystem contents : String) (mode : Nat) : Option Conf :=
  match c.ignitionV23 with
  | none => none
  | some g => some { c with ignitionV23 := some (appendFileV2x g path filesystem contents mode) }

/-- Overlay config used by `addFileV3` and its newer counterparts: only the
version scalar and one file entry are populated. -/
def fileOverlayV3 (version path contents : String) (mode : Nat) : V3Config :=
  { version := version
    files := [{ path := path, contents := some (dataurlEncode contents), mode := some mode }] }

/-- `Conf.addFileV3`: merge-based, overlay pinned at version 3.0.0. -/
def Conf.addFileV3 (c : Conf) (path filesystem contents : String) (mode : Nat) : Option Conf :=
  c.MergeV3 (fileOverlayV3 "3.0.0" path contents mode)

/-- `Conf.addFileV31`: merge-based, overlay pinned at version 3.1.0. -/
def Conf.addFileV31 (c : Conf) (path filesystem contents : String) (mode : Nat) : Option Conf :=
  c.MergeV31 (fileOverlayV3 "3.1.0" path contents mode)

/-- `Conf.addFileV32`: merge-based, overlay pinned at version 3.2.0. -/
def Conf.addFileV32 (c : Conf) (path filesystem contents : String) (mode : Nat) : Option Conf :=
  c.MergeV32 (fileOverlayV3 "3.2.0" path contents mode)

/-- `Conf.addFileV33`: merge-based, overlay pinned at version 3.3.0. -/
def Conf.addFileV33 (c : Conf) (path filesystem contents : String) (mode : Nat) : Option Conf :=
  c.MergeV33 (fileOverlayV3 "3.3.0" path contents mode)

/-- Modelled from the Go `fmt.Sprintf` verb used by `addFileCloudConfig`
for the octal file mode (alternate-form octal). -/
def octalPerm (m : Nat) : String :=
  if m = 0 then "0" else "0" ++ String.mk (Nat.toDigits 8 m)

/-- `Conf.addFileCloudConfig`: appends a write-file entry owned by root. -/
def Conf.addFileCloudConfig (c : Conf) (path filesystem contents : String) (mode : Nat) : Option Conf :=
  match c.cloudconfig with
  | none => none
  | some cc =>
    some { c with cloudconfig := some { cc with writeFiles := cc.writeFiles ++
      [{ content := contents, owner := "root", path := path,
         rawFilePermissions := octalPerm mode }] } }

/-- `Conf.AddFile`: dispatches on the populated variant in the source's
order (v3.3, v3.2, v3.1, v3.0, v2.0, v2.1, v2.2, v2.3, v1, cloud-config);
with no populated variant the source panics (modelled `none`). -/
def Conf.AddFile (c : Conf) (path filesystem contents : String) (mode : Nat) : Option Conf :=
  if c.ignitionV33.isSome then c.addFileV33 path filesystem contents mode
  else if c.ignitionV32.isSome then c.addFileV32 path filesystem contents mode
  else if c.ignitionV31.isSome then c.addFileV31 path filesystem contents mode
  else if c.ignitionV3.isSome then c.addFileV3 path filesystem contents mode
  else if c.ignitionV2.isSome then c.addFileV2 path filesystem contents mode
  else if c.ignitionV21.isSome then c.addFileV21 path filesystem contents mode
  else if c.ignitionV22.isSome then c.addFileV22 path filesystem contents mode
  else if c.ignitionV23.isSome then c.addFileV23 path filesystem contents mode
  else if c.ignitionV1.isSome then c.addFileV1 path filesystem contents mode
  else if c.cloudconfig.isSome then c.addFileCloudConfig path filesystem contents mode
  else none

/-- `Conf.addSystemdUnitV1`: appends a unit entry (no duplicate search). -/
def Conf.addSystemdUnitV1 (c : Conf) (name contents : String) (enable : Bool) : Option Conf :=
  match c.ignitionV1 with
  | none => none
  | some g =>
    some { c with ignitionV1 := some { g with units := g.units ++
      [{ name := name, contents := contents, enable := enable }] } }

/-- `Conf.addSystemdUnitV2`: appends a unit entry (no duplicate search). -/
def Conf.addSystemdUnitV2 (c : Conf) (name contents : String) (enable : Bool) : Option Conf :=
  match c.ignitionV2 with
  | none => none
  | some g =>
    some { c with ignitionV2 := some { g with units := g.units ++
      [{ name := name, contents := contents, enable := enable }] } }

/-- Appends a v2.1/v2.2/v2.3-style unit entry (shared body of
`addSystemdUnitV21`, `addSystemdUnitV22`, `addSystemdUnitV23`). -/
def appendUnitV2x (g : V2xConfig) (name contents : String) (enable : Bool) : V2xConfig :=
  { g with units := g.units ++
    [{ name := name, contents := contents, enabled := some enable }] }

/-- `Conf.addSystemdUnitV21`. -/
def Conf.addSystemdUnitV21 (c : Conf) (name contents : String) (enable : Bool) : Option Conf :=
  match c.ignitionV21 with
  | none => none
  | some g => some { c with ignitionV21 := some (appendUnitV2x g name contents enable) }

/-- `Conf.addSystemdUnitV22`. -/
def Conf.addSystemdUnitV22 (c : Conf) (name contents : String) (enable : Bool) : Option Conf :=
  match c.ignitionV22 with
  | none => none
  | some g => some { c with ignitionV22 := some (appendUnitV2x g name contents enable) }

/-- `Conf.addSystemdUnitV23`. -/
def Conf.addSystemdUnitV23 (c : Conf) (name contents : String) (enable : Bool) : Option Conf :=
  match c.ignitionV23 with
  | none => none
  | some g => some { c with ignitionV23 := some (appendUnitV2x g name contents enable) }

/-- Overlay config used by the merge-based v3.x unit routines: only the
version scalar and one unit entry are populated. -/
def unitOverlayV3 (version name contents : String) (enable : Bool) : V3Config :=
  { version := version
    units := [{ name := name, contents := some contents, enabled := some enable }] }

/-- `Conf.addSystemdUnitV3`: merge-based, overlay pinned at 3.0.0. -/
def Conf.addSystemdUnitV3 (c : Conf) (name contents : String) (enable : Bool) : Option Conf :=
  c.MergeV3 (unitOverlayV3 "3.0.0" name contents enable)

/-- `Conf.addSystemdUnitV31`: merge-based, overlay pinned at 3.1.0. -/
def Conf.addSystemdUnitV31 (c : Conf) (name contents : String) (enable : Bool) : Option Conf :=
  c.MergeV31 (unitOverlayV3 "3.1.0" name contents enable)

/-- `Conf.addSystemdUnitV32`: merge-based, overlay pinned at 3.2.0. -/
def Conf.addSystemdUnitV32 (c : Conf) (name contents : String) (enable : Bool) : Option Conf :=
  c.MergeV32 (unitOverlayV3 "3.2.0" name contents enable)

/-- `Conf.addSystemdUnitV33`: merge-based, overlay pinned at 3.3.0. -/
def Conf.addSystemdUnitV33 (c : Conf) (name contents : String) (enable : Bool) : Option Conf :=
  c.MergeV33 (unitOverlayV3 "3.3.0" name contents enable)

/-- `Conf.addSystemdUnitCloudConfig`. -/
def Conf.addSystemdUnitCloudConfig (c : Conf) (name contents : String) (enable : Bool) : Option Conf :=
  match c.cloudconfig with
  | none => none
  | some cc =>
    some { c with cloudconfig := some { cc with units := cc.units ++
      [{ name := name, content := contents, enable := enable }] } }

/-- `Conf.AddSystemdUnit`: dispatches on the populated variant in the
source's order (v1 first, then v2.0 to v2.3, v3.0 to v3.3, cloud-config).
The source has no final else branch: with no populated variant the call is
a silent no-op. -/
def Conf.AddSystemdUnit (c : Conf) (name contents : String) (enable : Bool) : Option Conf :=
  if c.ignitionV1.isSome then c.addSystemdUnitV1 name contents enable
  else if c.ignitionV2.isSome then c.addSystemdUnitV2 name contents enable
  else if c.ignitionV21.isSome then c.addSystemdUnitV21 name contents enable
  else if c.ignitionV22.isSome then c.addSystemdUnitV22 name contents enable
  else if c.ignitionV23.isSome then c.addSystemdUnitV23 name contents enable
  else if c.ignitionV3.isSome then c.addSystemdUnitV3 name contents enable
  else if c.ignitionV31.isSome then c.addSystemdUnitV31 name contents enable
  else if c.ignitionV32.isSome then c.addSystemdUnitV32 name contents enable
  else if c.ignitionV33.isSome then c.addSystemdUnitV33 name contents enable
  else if c.cloudconfig.isSome then c.addSystemdUnitCloudConfig name contents enable
  else some c

/-- Drop-in insertion over a v1/v2.0-style unit list: the first unit whose
name equals `service` receives the drop-in; with no match a new unit
carrying only the drop-in is appended at the end (loop body of
`addSystemdDropinV1` / `addSystemdDropinV2`). -/
def dropinInsertV2 (service name contents : String) : List V2Unit → List V2Unit
  | [] => [{ name := service, dropins := [{ name := name, contents := contents }] }]
  | u :: rest =>
    if u.name = service then
      { u with dropins := u.dropins ++ [{ name := name, contents := contents }] } :: rest
    else
      u :: dropinInsertV2 service name contents rest

/-- Drop-in insertion over a v2.1/v2.2/v2.3-style unit list (loop body of
`addSystemdDropinV21` / `addSystemdDropinV22` / `addSystemdDropinV23`). -/
def dropinInsertV2x (service name contents : String) : List V2xUnit → List V2xUnit
  | [] => [{ name := service, dropins := [{ name := name, contents := contents }] }]
  | u :: rest =>
    if u.name = service then
      { u with dropins := u.dropins ++ [{ name := name, contents := contents }] } :: rest
    else
      u :: dropinInsertV2x service name contents rest

/-- Drop-in insertion over a cloud-config unit list (loop body of
`addSystemdDropinCloudConfig`). -/
def dropinInsertCC (service name contents : String) : List CCUnit → List CCUnit
  | [] => [{ name := service, dropins := [{ name := name, contents := contents }] }]
  | u :: rest =>
    if u.name = service then
      { u with dropins := u.dropins ++ [{ name := name, contents := contents }] } :: rest
    else
      u :: dropinInsertCC service name contents rest

/-- `Conf.addSystemdDropinV1`. -/
def Conf.addSystemdDropinV1 (c : Conf) (service name contents : String) : Option Conf :=
  match c.ignitionV1 with
  | none => none
  | some g =>
    some { c with ignitionV1 := some { g with units := dropinInsertV2 service name contents g.units } }

/-- `Conf.addSystemdDropinV2`. -/
def Conf.addSystemdDropinV2 (c : Conf) (service name contents : String) : Option Conf :=
  match c.ignitionV2 with
  | none => none
  | some g =>
    some { c with ignitionV2 := some { g with units := dropinInsertV2 service name contents g.units } }

/-- `Conf.addSystemdDropinV21`. -/
def Conf.addSystemdDropinV21 (c : Conf) (service name contents : String) : Option Conf :=
  match c.ignitionV21 with
  | none => none
  | some g =>
    some { c with ignitionV21 := some { g with units := dropinInsertV2x service name contents g.units } }

/-- `Conf.addSystemdDropinV22`. -/
def Conf.addSystemdDropinV22 (c : Conf) (service name contents : String) : Option Conf :=
  match c.ignitionV22 with
  | none => none
  | some g =>
    some { c with ignitionV22 := some { g with units := dropinInsertV2x service name contents g.units } }

/-- `Conf.addSystemdDropinV23`. -/
def Conf.addSystemdDropinV23 (c : Conf) (service name contents : String) : Option Conf :=
  match c.ignitionV23 with
  | none => none
  | some g =>
    some { c with ignitionV23 := some { g with units := dropinInsertV2x service name contents g.units } }

/-- Overlay config used by the merge-based v3.x drop-in routines: only the
version scalar and one unit holding one drop-in are populated. -/
def dropinOverlayV3 (version service name contents : String) : V3Config :=
  { version := version
    units := [{ name := service,
                dropins := [{ name := name, contents := contents }] }] }

/-- `Conf.addSystemdDropinV3`: merge-based, overlay pinned at 3.0.0;
dereferences the v3.0 slot via `MergeV3`. -/
def Conf.addSystemdDropinV3 (c : Conf) (service name contents : String) : Option Conf :=
  c.MergeV3 (dropinOverlayV3 "3.0.0" service name contents)

/-- `Conf.addSystemdDropinV31`: merge-based, overlay pinned at 3.1.0.
Defined in the source but never invoked by the dispatcher. -/
def Conf.addSystemdDropinV31 (c : Conf) (service name contents : String) : Option Conf :=
  c.MergeV31 (dropinOverlayV3 "3.1.0" service name contents)

/-- `Conf.addSystemdDropinV32`: merge-based, overlay pinned at 3.2.0. -/
def Conf.addSystemdDropinV32 (c : Conf) (service name contents : String) : Option Conf :=
  c.MergeV32 (dropinOverlayV3 "3.2.0" service name contents)

/-- `Conf.addSystemdDropinV33`: merge-based, overlay pinned at 3.3.0. -/
def Conf.addSystemdDropinV33 (c : Conf) (service name contents : String) : Option Conf :=
  c.MergeV33 (dropinOverlayV3 "3.3.0" service name contents)

/-- `Conf.addSystemdDropinCloudConfig`. -/
def Conf.addSystemdDropinCloudConfig (c : Conf) (service name contents : String) : Option Conf :=
  match c.cloudconfig with
  | none => none
  | some cc =>
    some { c with cloudconfig := some { cc with units := dropinInsertCC service name contents cc.units } }

/-- `Conf.AddSystemdUnitDropin`: dispatches on the populated variant in the
source's order. The branch guarded by a populated v3.1 slot invokes
`addSystemdDropinV3` — the v3.0 routine — exactly as the source does (this
mirrors the dispatch at the `else if c.ignitionV31 != nil` arm). The source
has no final else branch: with no populated variant the call is a silent
no-op. -/
def Conf.AddSystemdUnitDropin (c : Conf) (service name contents : String) : Option Conf :=
  if c.ignitionV1.isSome then c.addSystemdDropinV1 service name contents
  else if c.ignitionV2.isSome then c.addSystemdDropinV2 service name contents
  else if c.ignitionV21.isSome then c.addSystemdDropinV21 service name contents
  else if c.ignitionV22.isSome then c.addSystemdDropinV22 service name contents
  else if c.ignitionV23.isSome then c.addSystemdDropinV23 service name contents
  else if c.ignitionV3.isSome then c.addSystemdDropinV3 service name contents
  else if c.ignitionV31.isSome then c.addSystemdDropinV3 service name contents
  else if c.ignitionV32.isSome then c.addSystemdDropinV32 service name contents
  else if c.ignitionV33.isSome then c.addSystemdDropinV33 service name contents
  else if c.cloudconfig.isSome then c.addSystemdDropinCloudConfig service name contents
  else some c

/-- Key insertion over a v1/v2.x-style user list: the user whose name equals
`usr` has the keys appended to its key list; with no match a new user entry
holding the keys is appended (loop body of the `copyKeysIgnitionV1` to
`copyKeysIgnitionV23` routines; keys are already rendered to strings). -/
def copyKeysUsers (usr : String) (keyStrs : List String) : List V2User → List V2User
  | [] => [{ name := usr, sshAuthorizedKeys := keyStrs }]
  | u :: rest =>
    if u.name = usr then
      { u with sshAuthorizedKeys := u.sshAuthorizedKeys ++ keyStrs } :: rest
    else
      u :: copyKeysUsers usr keyStrs rest

/-- `Conf.copyKeysIgnitionV1`. -/
def Conf.copyKeysIgnitionV1 (c : Conf) (keys : List String) : Option Conf :=
  match c.ignitionV1 with
  | none => none
  | some g => some { c with ignitionV1 := some { g with users := copyKeysUsers c.user keys g.users } }

/-- `Conf.copyKeysIgnitionV2`. -/
def Conf.copyKeysIgnitionV2 (c : Conf) (keys : List String) : Option Conf :=
  match c.ignitionV2 with
  | none => none
  | some g => some { c with ignitionV2 := some { g with users := copyKeysUsers c.user keys g.users } }

/-- `Conf.copyKeysIgnitionV21`. -/
def Conf.copyKeysIgnitionV21 (c : Conf) (keys : List String) : Option Conf :=
  match c.ignitionV21 with
  | none => none
  | some g => some { c with ignitionV21 := some { g with users := copyKeysUsers c.user keys g.users } }

/-- `Conf.copyKeysIgnitionV22`. -/
def Conf.copyKeysIgnitionV22 (c : Conf) (keys : List String) : Option Conf :=
  match c.ignitionV22 with
  | none => none
  | some g => some { c with ignitionV22 := some { g with users := copyKeysUsers c.user keys g.users } }

/-- `Conf.copyKeysIgnitionV23`. -/
def Conf.copyKeysIgnitionV23 (c : Conf) (keys : List String) : Option Conf :=
  match c.ignitionV23 with
  | none => none
  | some g => some { c with ignitionV23 := some { g with users := copyKeysUsers c.user keys g.users } }

/-- Overlay config used by the merge-based v3.x key routines: one user
entry carrying the keys. -/
def keysOverlayV3 (version usr : String) (keys : List String) : V3Config :=
  { version := version
    users := [{ name := usr, sshAuthorizedKeys := keys }] }

/-- `Conf.copyKeysIgnitionV3`: merge-based, overlay pinned at 3.0.0. -/
def Conf.copyKeysIgnitionV3 (c : Conf) (keys : List String) : Option Conf :=
  c.MergeV3 (keysOverlayV3 "3.0.0" c.user keys)

/-- `Conf.copyKeysIgnitionV31`: merge-based, overlay pinned at 3.1.0. -/
def Conf.copyKeysIgnitionV31 (c : Conf) (keys : List String) : Option Conf :=
  c.MergeV31 (keysOverlayV3 "3.1.0" c.user keys)

/-- `Conf.copyKeysIgnitionV32`: merge-based, overlay pinned at 3.2.0. -/
def Conf.copyKeysIgnitionV32 (c : Conf) (keys : List String) : Option Conf :=
  c.MergeV32 (keysOverlayV3 "3.2.0" c.user keys)

/-- `Conf.copyKeysIgnitionV33`: merge-based, overlay pinned at 3.3.0. -/
def Conf.copyKeysIgnitionV33 (c : Conf) (keys : List String) : Option Conf :=
  c.MergeV33 (keysOverlayV3 "3.3.0" c.user keys)

/-- `Conf.copyKeysCloudConfig`: appends to the flat top-level key list. -/
def Conf.copyKeysCloudConfig (c : Conf) (keys : List String) : Option Conf :=
  match c.cloudconfig with
  | none => none
  | some cc =>
    some { c with cloudconfig := some { cc with sshAuthorizedKeys := cc.sshAuthorizedKeys ++ keys } }

/-- `Conf.copyKeysScript`: replaces the fixed placeholder token with the
newline-joined key strings. -/
def Conf.copyKeysScript (c : Conf) (keys : List String) : Option Conf :=
  some { c with script := c.script.replace "@SSH_KEYS@" (String.intercalate "\n" keys) }

/-- `Conf.CopyKeys`: dispatches on the populated variant in the source's
order (v1 first, newest declarative last, then cloud-config, then a raw
script with non-empty text). No branch matches an empty or multipart-only
`Conf`: the call is then a silent no-op. -/
def Conf.CopyKeys (c : Conf) (keys : List String) : Option Conf :=
  if c.ignitionV1.isSome then c.copyKeysIgnitionV1 keys
  else if c.ignitionV2.isSome then c.copyKeysIgnitionV2 keys
  else if c.ignitionV21.isSome then c.copyKeysIgnitionV21 keys
  else if c.ignitionV22.isSome then c.copyKeysIgnitionV22 keys
  else if c.ignitionV23.isSome then c.copyKeysIgnitionV23 keys
  else if c.ignitionV3.isSome then c.copyKeysIgnitionV3 keys
  else if c.ignitionV31.isSome then c.copyKeysIgnitionV31 keys
  else if c.ignitionV32.isSome then c.copyKeysIgnitionV32 keys
  else if c.ignitionV33.isSome then c.copyKeysIgnitionV33 keys
  else if c.cloudconfig.isSome then c.copyKeysCloudConfig keys
  else if c.script != "" then c.copyKeysScript keys
  else some c

/-- Overlay config used by the merge-based `addUserToGroups` routines: one
user entry carrying the group list. -/
def groupsOverlayV3 (version usr : String) (groups : List String) : V3Config :=
  { version := version
    users := [{ name := usr, groups := groups }] }

/-- `Conf.addUserToGroupsV3`: merge-based, overlay pinned at 3.0.0. -/
def Conf.addUserToGroupsV3 (c : Conf) (user : String) (groups : List String) : Option Conf :=
  c.MergeV3 (groupsOverlayV3 "3.0.0" user groups)

/-- `Conf.addUserToGroupsV31`: merge-based, overlay pinned at 3.1.0. -/
def Conf.addUserToGroupsV31 (c : Conf) (user : String) (groups : List String) : Option Conf :=
  c.MergeV31 (groupsOverlayV3 "3.1.0" user groups)

/-- `Conf.addUserToGroupsV32`: merge-based, overlay pinned at 3.2.0. -/
def Conf.addUserToGroupsV32 (c : Conf) (user : String) (groups : List String) : Option Conf :=
  c.MergeV32 (groupsOverlayV3 "3.2.0" user groups)

/-- `Conf.addUserToGroupsV33`: merge-based, overlay pinned at 3.3.0. -/
def Conf.addUserToGroupsV33 (c : Conf) (user : String) (groups : List String) : Option Conf :=
  c.MergeV33 (groupsOverlayV3 "3.3.0" user groups)

/-- The error text of the unsupported-variant branch of `AddUserToGroups`. -/
def missingAddUserToGroupsMsg : String :=
  "missing addUserToGroups implementation for this config type"

/-- `Conf.AddUserToGroups`: supported on the four v3.x declarative
variants, each via a merge-based overlay; on every other `Conf` the source
sets a recoverable error and leaves the document untouched. The outer
`Option` layer records a panic (never reachable through this dispatcher,
since each guarded branch merges into its own populated slot). -/
def Conf.AddUserToGroups (c : Conf) (user : String) (groups : List String) :
    Option (Except String Conf) :=
  if c.ignitionV3.isSome then (c.addUserToGroupsV3 user groups).map Except.ok
  else if c.ignitionV31.isSome then (c.addUserToGroupsV31 user groups).map Except.ok
  else if c.ignitionV32.isSome then (c.addUserToGroupsV32 user groups).map Except.ok
  else if c.ignitionV33.isSome then (c.addUserToGroupsV33 user groups).map Except.ok
  else some (Except.error missingAddUserToGroupsMsg)

/-- `Conf.IsIgnition`: true when any of the nine declarative slots is
populated. -/
def Conf.IsIgnition (c : Conf) : Bool :=
  c.ignitionV1.isSome || c.ignitionV2.isSome || c.ignitionV21.isSome ||
  c.ignitionV22.isSome || c.ignitionV23.isSome || c.ignitionV3.isSome ||
  c.ignitionV31.isSome || c.ignitionV32.isSome || c.ignitionV33.isSome

/-- `Conf.IsEmpty`: consults the declarative slots, the cloud-config slot
and the script text — not the multipart slot. -/
def Conf.IsEmpty (c : Conf) : Bool :=
  !c.IsIgnition && c.cloudconfig.isNone && c.script == ""

/-- Outcome of one external Ignition parser attempt: success with a config,
the distinguished unknown-version signal, or any other (fatal) error. The
accompanying report is only logged by the source and is not modelled. -/
inductive ParseResult (α : Type) where
  | ok : α → ParseResult α
  | errUnknownVersion : ParseResult α
  | err : String → ParseResult α
deriving DecidableEq, Repr

/-- The external parse/translate services consumed by `Render`: the nine
per-version Ignition parsers, the cloud-config parser, the CLC transpiler
(parse followed by conversion to v2.3, taking the platform name), and the
Butane byte translator. None of these is code of this repository; `Render`
is verified for every instantiation. -/
structure Externals where
  parseV1 : String → ParseResult V1Config
  parseV2 : String → ParseResult V2Config
  parseV21 : String → ParseResult V2xConfig
  parseV22 : String → ParseResult V2xConfig
  parseV23 : String → ParseResult V2xConfig
  parseV3 : String → ParseResult V3Config
  parseV31 : String → ParseResult V3Config
  parseV32 : String → ParseResult V3Config
  parseV33 : String → ParseResult V3Config
  newCloudConfig : String → Except String CloudConfig
  clcParse : String → Except String Unit
  clcConvert : String → String → Except String V2xConfig
  butaneTranslateBytes : String → Except String String

/-- The error returned when the version cascade exhausts every parser: the
source then returns the unknown-version error of the last attempt. -/
def errUnknownVersionMsg : String := "unsupported config version"

/-- The `renderIgnition` closure of `UserData.Render`: tries each known
version in turn, oldest first. Success populates that version's slot and
stops; the unknown-version signal falls through to the next parser; any
other error aborts immediately with that error. -/
def renderIgnition (E : Externals) (data : String) (c : Conf) : Except String Conf :=
  match E.parseV1 data with
  | .ok g => .ok { c with ignitionV1 := some g }
  | .err e => .error e
  | .errUnknownVersion =>
  match E.parseV2 data with
  | .ok g => .ok { c with ignitionV2 := some g }
  | .err e => .error e
  | .errUnknownVersion =>
  match E.parseV21 data with
  | .ok g => .ok { c with ignitionV21 := some g }
  | .err e => .error e
  | .errUnknownVersion =>
  match E.parseV22 data with
  | .ok g => .ok { c with ignitionV22 := some g }
  | .err e => .error e
  | .errUnknownVersion =>
  match E.parseV23 data with
  | .ok g => .ok { c with ignitionV23 := some g }
  | .err e => .error e
  | .errUnknownVersion =>
  match E.parseV3 data with
  | .ok g => .ok { c with ignitionV3 := some g }
  | .err e => .error e
  | .errUnknownVersion =>
  match E.parseV31 data with
  | .ok g => .ok { c with ignitionV31 := some g }
  | .err e => .error e
  | .errUnknownVersion =>
  match E.parseV32 data with
  | .ok g => .ok { c with ignitionV32 := some g }
  | .err e => .error e
  | .errUnknownVersion =>
  match E.parseV33 data with
  | .ok g => .ok { c with ignitionV33 := some g }
  | .err e => .error e
  | .errUnknownVersion => .error errUnknownVersionMsg

/-- The key-injection epilogue of `Render`: with pending keys, `CopyKeys`
is invoked on the rendered `Conf`. -/
def renderFinish (c : Conf) (keys : List String) : Option Conf :=
  if keys.length > 0 then c.CopyKeys keys else some c

/-- `UserData.Render`: builds a `Conf` for the target platform. The result
pairs the `UserData` value as it stands after the call (the Butane arm of
the source overwrites `u.data` with the translated Ignition bytes and sets
`u.kind` to the Ignition kind through the receiver pointer) with the
rendered `Conf` or the reported error. The outer `Option` is the panic
layer; the `invalid kind` panic arm of the source switch is unreachable
because all seven kinds are matched. -/
def UserData.Render (E : Externals) (u : UserData) (ctPlatform : String) :
    Option (UserData × Except String Conf) :=
  let c : Conf := { user := u.user }
  match u.kind with
  | .kindEmpty =>
    (renderFinish c u.extraKeys).map (fun c2 => (u, .ok c2))
  | .kindCloudConfig =>
    match E.newCloudConfig u.data with
    | .error e => some (u, .error e)
    | .ok cc =>
      (renderFinish { c with cloudconfig := some cc } u.extraKeys).map
        (fun c2 => (u, .ok c2))
  | .kindScript =>
    (renderFinish { c with script := u.data } u.extraKeys).map
      (fun c2 => (u, .ok c2))
  | .kindMultipartMime =>
    (renderFinish { c with multipartMime := u.data } u.extraKeys).map
      (fun c2 => (u, .ok c2))
  | .kindIgnition =>
    match renderIgnition E u.data c with
    | .error e => some (u, .error e)
    | .ok c2 =>
      (renderFinish c2 u.extraKeys).map (fun c3 => (u, .ok c3))
  | .kindContainerLinuxConfig =>
    match E.clcParse u.data with
    | .error e => some (u, .error e)
    | .ok _ =>
      match E.clcConvert u.data ctPlatform with
      | .error e => some (u, .error e)
      | .ok ignc =>
        (renderFinish { c with ignitionV23 := some ignc } u.extraKeys).map
          (fun c2 => (u, .ok c2))
  | .kindButane =>
    match E.butaneTranslateBytes u.data with
    | .error e => some (u, .error e)
    | .ok ignc =>
      let u2 : UserData := { u with data := ignc, kind := .kindIgnition }
      match renderIgnition E u2.data c with
      | .error e => some (u2, .error e)
      | .ok c2 =>
        (renderFinish c2 u2.extraKeys).map (fun c3 => (u2, .ok c3))

/-- The external serialization services used by `Conf.String`: one JSON
marshaller per declarative slot plus the cloud-config `String` method.
`Conf.String` is verified for every instantiation. -/
structure Marshals where
  jsonV1 : V1Config → String
  jsonV2 : V2Config → String
  jsonV21 : V2xConfig → String
  jsonV22 : V2xConfig → String
  jsonV23 : V2xConfig → String
  jsonV3 : V3Config → String
  jsonV31 : V3Config → String
  jsonV32 : V3Config → String
  jsonV33 : V3Config → String
  ccString : CloudConfig → String

/-- `Conf.String`: renders the populated slot, consulted in the source's
order; the script and multipart texts pass through unchanged; an entirely
empty `Conf` renders as the empty string. -/
def Conf.String (M : Marshals) (c : Conf) : String :=
  match c.ignitionV1 with
  | some g => M.jsonV1 g
  | none =>
  match c.ignitionV2 with
  | some g => M.jsonV2 g
  | none =>
  match c.ignitionV21 with
  | some g => M.jsonV21 g
  | none =>
  match c.ignitionV22 with
  | some g => M.jsonV22 g
  | none =>
  match c.ignitionV23 with
  | some g => M.jsonV23 g
  | none =>
  match c.ignitionV3 with
  | some g => M.jsonV3 g
  | none =>
  match c.ignitionV31 with
  | some g => M.jsonV31 g
  | none =>
  match c.ignitionV32 with
  | some g => M.jsonV32 g
  | none =>
  match c.ignitionV33 with
  | some g => M.jsonV33 g
  | none =>
  match c.cloudconfig with
  | some cc => M.ccString cc
  | none =>
  if c.script != "" then c.script
  else if c.multipartMime != "" then c.multipartMime
  else ""

/-- `Conf.Bytes`: the serialized text of `Conf.String` (byte conversion is
the identity at this level of modelling). -/
def Conf.Bytes (M : Marshals) (c : Conf) := c.String M

/-- Outcome of the Go gzip reading pipeline of `decompressIfGzipped`: a
successful decompression, a `gzip.NewReader` framing error, or a
`ReadAll` body error. The gzip codec itself is external; the claims hold
for every decoder. -/
inductive GzResult where
  | ok : String → GzResult
  | newReaderErr : GzResult
  | readErr : GzResult
deriving DecidableEq, Repr

/-- `decompressIfGzipped` of the vendored `cloudinit.go`: a framing error
or a body read error both fall back to the original bytes; only a clean
decompression substitutes the decompressed bytes. Total for every decoder
`gunzip` and every input. -/
def decompressIfGzipped (gunzip : String → GzResult) (data : String) : String :=
  match gunzip data with
  | .ok uncompressed => uncompressed
  | .readErr => data
  | .newReaderErr => data

/-- Lookup of a MIME header value (`header.Get`); a missing key yields the
empty string. -/
def headerGet (h : List (String × String)) (k : String) : String :=
  match h.find? (fun p => p.1 = k) with
  | some p => p.2
  | none => ""

/-- The multipart check applied after decompression: parse the MIME header
(an error means "not multipart") and test whether the Content-Type value
contains `multipart/mixed`. `readMIMEHeader` abstracts the external
`textproto` reader. -/
def multipartCheck (readMIMEHeader : String → Option (List (String × String)))
    (userdata : String) : Bool :=
  match readMIMEHeader userdata with
  | none => false
  | some header => containsSub (headerGet header "Content-Type") "multipart/mixed"

/-- `isMultipartMime` of the vendored `cloudinit.go`. -/
def isMultipartMime (gunzip : String → GzResult)
    (readMIMEHeader : String → Option (List (String × String)))
    (userdata : String) : Bool :=
  multipartCheck readMIMEHeader (decompressIfGzipped gunzip userdata)

/-- Characters before the first newline. -/
def takeUntilNl : List Char → List Char
  | [] => []
  | c :: rest => if c = '\n' then [] else c :: takeUntilNl rest

/-- First line of a payload (`strings.SplitN(s, "\n", 2)[0]`). -/
def firstLine (s : String) : String :=
  String.mk (takeUntilNl s.toList)

/-- Right-trim of trailing whitespace (`strings.TrimRightFunc` with
`unicode.IsSpace`). -/
def trimRightWS (s : String) : String :=
  String.mk ((s.toList.reverse.dropWhile Char.isWhitespace).reverse)

/-- The cloud-config check applied after decompression: the right-trimmed
first line must equal the fixed marker. -/
def cloudConfigCheck (userdata : String) : Bool :=
  trimRightWS (firstLine userdata) = "#cloud-config"

/-- `isCloudConfig` of the vendored `cloudinit.go`. -/
def isCloudConfig (gunzip : String → GzResult) (userdata : String) : Bool :=
  cloudConfigCheck (decompressIfGzipped gunzip userdata)

/-- The script check applied after decompression: the first line must start
with the shebang marker. -/
def scriptCheck (userdata : String) : Bool :=
  charsPrefix "#!".toList (firstLine userdata).toList

/-- `isScript` of the vendored `cloudinit.go`. -/
def isScript (gunzip : String → GzResult) (userdata : String) : Bool :=
  scriptCheck (decompressIfGzipped gunzip userdata)

/-- Modelled from the spec: a concrete instance of the external v2.x-family
Ignition parser for version `v` — it accepts a payload declaring exactly its
own version and answers the unknown-version signal otherwise. -/
def specParseV2x (v : String) (data : String) : ParseResult V2xConfig :=
  if containsSub data ("\"version\":\"" ++ v ++ "\"") then .ok {} else .errUnknownVersion

/-- Modelled from the spec: concrete external v2.0 parser (see
`specParseV2x`). -/
def specParseV2 (data : String) : ParseResult V2Config :=
  if containsSub data "\"version\":\"2.0.0\"" then .ok {} else .errUnknownVersion

/-- Modelled from the spec: concrete external legacy v1 parser — a v1
payload is recognized by its distinct legacy version key. -/
def specParseV1 (data : String) : ParseResult V1Config :=
  if containsSub data "\"ignitionVersion\":1" then .ok {} else .errUnknownVersion

/-- Modelled from the spec: concrete external v3.x-family parser for
version `v` (see `specParseV2x`); the stored config records its version. -/
def specParseV3 (v : String) (data : String) : ParseResult V3Config :=
  if containsSub data ("\"version\":\"" ++ v ++ "\"") then .ok { version := v } else .errUnknownVersion

/-- Modelled from the spec: the Butane translator converts the whole payload
in one external call to raw declarative bytes pinned at the newest supported
version (3.3.0). -/
def specButaneOutput : String :=
  "\x7b\"ignition\":\x7b\"version\":\"3.3.0\"\x7d\x7d"

/-- Modelled from the spec: one concrete instantiation of every external
parse/translate service, used to evaluate the verified operations on
closed inputs. -/
def specExternals : Externals :=
  { parseV1 := specParseV1
    parseV2 := specParseV2
    parseV21 := specParseV2x "2.1.0"
    parseV22 := specParseV2x "2.2.0"
    parseV23 := specParseV2x "2.3.0"
    parseV3 := specParseV3 "3.0.0"
    parseV31 := specParseV3 "3.1.0"
    parseV32 := specParseV3 "3.2.0"
    parseV33 := specParseV3 "3.3.0"
    newCloudConfig := fun _ => .ok {}
    clcParse := fun _ => .ok ()
    clcConvert := fun _ _ => .ok {}
    butaneTranslateBytes := fun _ => .ok specButaneOutput }

/-- The declarative end-to-end input of the spec, declaring version 2.2.0. -/
def ign22Input : String :=
  "\x7b\"ignition\":\x7b\"version\":\"2.2.0\"\x7d\x7d"

/-- A `Conf` whose sole populated variant is declarative v3.1 (as produced
by a successful v3.1 parse). -/
def confV31only : Conf := { ignitionV31 := some { version := "3.1.0" } }

/-- Claim C1: the claim states that on a Document whose sole populated
variant is declarative v3.1, `AddSystemdUnitDropin` dispatches to the v3.1
per-variant routine and folds the drop-in into the stored v3.1 document
without faulting. The code does not: the dispatch arm guarded by a
populated v3.1 slot invokes `addSystemdDropinV3` — the v3.0 routine — whose
`MergeV3` dereferences the nil v3.0 slot and panics (the v3.1 routine
`addSystemdDropinV31` exists in the source but is never called). This
theorem evaluates the operation at such a document: the call faults. -/
theorem addSystemdUnitDropin_v31_dispatch_faults :
    confV31only.AddSystemdUnitDropin "etcd.service" "20-clct.conf" "[Service]\nRestart=always"
      = none := rfl

/-- Claim C7: the claim quantifies over every Document. On the
direct-mutation variants the search/append/synthesize behaviour holds — the
first conjunct shows the claim's own example on a v2.2 document with no
`docker.service` unit: a new unit named `docker.service` is appended whose
only content is the drop-in. But on a v3.1 document (populated variant
v3.1, a unit list without `docker.service`) the dispatcher routes to the
v3.0 routine and faults on the nil v3.0 slot instead of synthesizing the
unit, so the claim does not hold for every Document: the second conjunct
evaluates that failing input. -/
theorem addSystemdUnitDropin_docker_example_and_v31_fault :
    (Conf.AddSystemdUnitDropin
        { ignitionV22 := some { units := [{ name := "sshd.service" }] } }
        "docker.service" "10-override.conf" "[Service]\nLimitNOFILE=1024"
      = some { ignitionV22 := some { units :=
          [{ name := "sshd.service" },
           { name := "docker.service",
             dropins := [{ name := "10-override.conf",
                           contents := "[Service]\nLimitNOFILE=1024" }] }] } }) ∧
    (Conf.AddSystemdUnitDropin
        { ignitionV31 := some { version := "3.1.0",
                                units := [{ name := "sshd.service" }] } }
        "docker.service" "10-override.conf" "[Service]\nLimitNOFILE=1024"
      = none) :=
  ⟨rfl, rfl⟩

/-- Claim C9: `IsEmpty` on a `Conf` whose only populated slot is the
multipart MIME document returns true — the emptiness check consults the
nine declarative slots, the cloud-config slot and the script text, never
the multipart slot — while `String` and `Bytes` on the same `Conf` return
the non-empty multipart text, for every choice of marshallers. -/
theorem isEmpty_ignores_multipart (M : Marshals) (s : String) (h : s ≠ "") :
    Conf.IsEmpty { multipartMime := s } = true ∧
    Conf.String M { multipartMime := s } = s ∧
    Conf.Bytes M { multipartMime := s } = s := by
  refine ⟨rfl, ?_, ?_⟩ <;> simp [Conf.String, Conf.Bytes, h]

/-- A concrete marshaller instantiation used to evaluate serializer
statements on closed inputs. -/
def constMarshals : Marshals :=
  { jsonV1 := fun _ => "v1"
    jsonV2 := fun _ => "v2"
    jsonV21 := fun _ => "v21"
    jsonV22 := fun _ => "v22"
    jsonV23 := fun _ => "v23"
    jsonV3 := fun _ => "v3"
    jsonV31 := fun _ => "v31"
    jsonV32 := fun _ => "v32"
    jsonV33 := fun _ => "v33"
    ccString := fun _ => "cc" }

/-- Witness for C9 at a concrete multipart text. -/
theorem isEmpty_ignores_multipart_witness :
    Conf.IsEmpty { multipartMime := "Content-Type: multipart/mixed\n" } = true ∧
    Conf.String constMarshals { multipartMime := "Content-Type: multipart/mixed\n" }
      = "Content-Type: multipart/mixed\n" ∧
    Conf.Bytes constMarshals { multipartMime := "Content-Type: multipart/mixed\n" }
      = "Content-Type: multipart/mixed\n" :=
  isEmpty_ignores_multipart constMarshals "Content-Type: multipart/mixed\n" (by decide)

/-- Claim C10: a `UserData` of the empty or multipart kind carrying pending
SSH keys still renders successfully and silently discards the keys: the
epilogue invokes `CopyKeys` on the resulting `Conf`, no dispatch branch
matches those kinds (the multipart slot is never consulted), the `Conf` is
returned unchanged and no error is reported. -/
theorem render_discards_keys_empty_multipart (E : Externals)
    (plat data usr : String) (keys : List String) (h : keys ≠ []) :
    (Conf.CopyKeys { user := usr } keys = some { user := usr }) ∧
    (Conf.CopyKeys { user := usr, multipartMime := data } keys
      = some { user := usr, multipartMime := data }) ∧
    (UserData.Render E { kind := .kindEmpty, data := data, extraKeys := keys, user := usr } plat
      = some ({ kind := .kindEmpty, data := data, extraKeys := keys, user := usr },
              .ok { user := usr })) ∧
    (UserData.Render E { kind := .kindMultipartMime, data := data, extraKeys := keys, user := usr } plat
      = some ({ kind := .kindMultipartMime, data := data, extraKeys := keys, user := usr },
              .ok { user := usr, multipartMime := data })) := by
  match keys, h with
  | k :: ks, _ =>
    refine ⟨rfl, rfl, ?_, ?_⟩ <;>
      · unfold UserData.Render renderFinish
        simp [Conf.CopyKeys]

/-- Witness for C10 at a concrete key list and multipart text. -/
theorem render_discards_keys_witness :
    UserData.Render specExternals
        { kind := .kindMultipartMime, data := "Content-Type: multipart/mixed\n",
          extraKeys := ["ssh-rsa AAAA core"], user := "core" } "qemu"
      = some ({ kind := .kindMultipartMime, data := "Content-Type: multipart/mixed\n",
                extraKeys := ["ssh-rsa AAAA core"], user := "core" },
              .ok { user := "core", multipartMime := "Content-Type: multipart/mixed\n" }) :=
  (render_discards_keys_empty_multipart specExternals "qemu"
    "Content-Type: multipart/mixed\n" "core" ["ssh-rsa AAAA core"]
    (by decide)).2.2.2

/-- Claim C5 counterexample: the claim states that every mutation operation
invoked on a Document with no populated variant is treated as a programming
fault that aborts rather than silently succeeding. `AddSystemdUnit` on a
fully unpopulated `Conf` has no matching dispatch branch and no else arm:
it silently succeeds, returning the `Conf` unchanged. -/
theorem addSystemdUnit_unpopulated_is_silent_noop :
    Conf.AddSystemdUnit {} "etcd-member.service" "[Unit]\nDescription=etcd" true
      = some ({} : Conf) := rfl

/-- Claim C5 as amended: only `AddFile` treats an unpopulated Document as a
programming fault (the source panics); `AddSystemdUnit`,
`AddSystemdUnitDropin` and `CopyKeys` on an unpopulated Document are silent
no-ops returning the Document unchanged; and `AddFile` on a legacy-v1
document whose existing first filesystem is bound to a device other than
the fixed root device is a hard, unrecoverable fault. -/
theorem mutation_unpopulated_behaviour (c cv1 : Conf) (g : V1Config)
    (fs0 : V1Filesystem) (rest : List V1Filesystem)
    (path filesystem contents nm ucontents : String) (mode : Nat) (en : Bool)
    (keys : List String)
    (h1 : c.ignitionV1 = none) (h2 : c.ignitionV2 = none) (h3 : c.ignitionV21 = none)
    (h4 : c.ignitionV22 = none) (h5 : c.ignitionV23 = none) (h6 : c.ignitionV3 = none)
    (h7 : c.ignitionV31 = none) (h8 : c.ignitionV32 = none) (h9 : c.ignitionV33 = none)
    (h10 : c.cloudconfig = none) (h11 : c.script = "") :
    (c.AddFile path filesystem contents mode = none) ∧
    (c.AddSystemdUnit nm ucontents en = some c) ∧
    (c.AddSystemdUnitDropin nm path ucontents = some c) ∧
    (c.CopyKeys keys = some c) ∧
    (cv1.ignitionV33 = none → cv1.ignitionV32 = none → cv1.ignitionV31 = none →
     cv1.ignitionV3 = none → cv1.ignitionV2 = none → cv1.ignitionV21 = none →
     cv1.ignitionV22 = none → cv1.ignitionV23 = none → cv1.ignitionV1 = some g →
     g.filesystems = fs0 :: rest → fs0.device ≠ rootDevice →
     cv1.AddFile path filesystem contents mode = none) := by
  refine ⟨?_, ?_, ?_, ?_, ?_⟩
  · simp [Conf.AddFile, h1, h2, h3, h4, h5, h6, h7, h8, h9, h10]
  · simp [Conf.AddSystemdUnit, h1, h2, h3, h4, h5, h6, h7, h8, h9, h10]
  · simp [Conf.AddSystemdUnitDropin, h1, h2, h3, h4, h5, h6, h7, h8, h9, h10]
  · simp [Conf.CopyKeys, h1, h2, h3, h4, h5, h6, h7, h8, h9, h10, h11]
  · intro k33 k32 k31 k3 k2 k21 k22 k23 kv1 kfs kdev
    simp [Conf.AddFile, Conf.addFileV1, k33, k32, k31, k3, k2, k21, k22, k23, kv1, kfs, kdev]

/-- A legacy-v1 `Conf` whose first filesystem is bound to a non-root
device. -/
def confV1badFs : Conf :=
  { ignitionV1 := some { filesystems :=
      [{ files := [], format := "btrfs", device := "/dev/sda9" }] } }

/-- Witness for the amended C5 at concrete inputs. -/
theorem mutation_unpopulated_behaviour_witness :
    ((({} : Conf)).AddFile "/etc/motd" "root" "hello" 420 = none) ∧
    ((({} : Conf)).AddSystemdUnit "a.service" "[Unit]" true = some ({} : Conf)) ∧
    ((({} : Conf)).AddSystemdUnitDropin "a.service" "/etc/motd" "[Unit]" = some ({} : Conf)) ∧
    ((({} : Conf)).CopyKeys ["ssh-rsa AAAA"] = some ({} : Conf)) ∧
    (confV1badFs.AddFile "/etc/motd" "root" "hello" 420 = none) := by
  have h := mutation_unpopulated_behaviour ({} : Conf) confV1badFs
    { filesystems := [{ files := [], format := "btrfs", device := "/dev/sda9" }] }
    { files := [], format := "btrfs", device := "/dev/sda9" } []
    "/etc/motd" "root" "hello" "a.service" "[Unit]" 420 true ["ssh-rsa AAAA"]
    rfl rfl rfl rfl rfl rfl rfl rfl rfl rfl rfl
  exact ⟨h.1, h.2.1, h.2.2.1, h.2.2.2.1,
    h.2.2.2.2 rfl rfl rfl rfl rfl rfl rfl rfl rfl rfl (by decide)⟩

/-- A `Conf` whose sole populated variant is declarative v3.0. -/
def confV3only : Conf := { ignitionV3 := some { version := "3.0.0" } }

/-- Claim C3 counterexample: the claim states that `AddUserToGroups`
succeeds precisely on the three newest declarative variants and returns a
reported UnsupportedOperation error on every other populated variant. On a
Document whose populated variant is declarative v3.0 — not among the three
newest of the nine — the call succeeds via the merge-based overlay instead
of erroring. -/
theorem addUserToGroups_v30_succeeds :
    confV3only.AddUserToGroups "core" ["docker"]
      = some (Except.ok { ignitionV3 := some { version := "3.0.0",
                                               users := [{ name := "core", groups := ["docker"] }] } }) := rfl

/-- Claim C3 as amended: merge eligibility for `AddUserToGroups` covers
exactly the four declarative v3.x variants (v3.0 through v3.3): whenever
one of those four slots is populated the call succeeds via a merge-based
overlay, and when none of them is populated it returns the recoverable
missing-implementation error, leaving the Document untouched. -/
theorem addUserToGroups_v3_family (c : Conf) (user : String) (groups : List String) :
    ((c.ignitionV3.isSome ∨ c.ignitionV31.isSome ∨ c.ignitionV32.isSome ∨ c.ignitionV33.isSome) →
      ∃ c2, c.AddUserToGroups user groups = some (Except.ok c2)) ∧
    (c.ignitionV3 = none → c.ignitionV31 = none → c.ignitionV32 = none → c.ignitionV33 = none →
      c.AddUserToGroups user groups = some (Except.error missingAddUserToGroupsMsg)) := by
  constructor
  · intro h
    rcases hv3 : c.ignitionV3 with _ | g3
    · rcases hv31 : c.ignitionV31 with _ | g31
      · rcases hv32 : c.ignitionV32 with _ | g32
        · rcases hv33 : c.ignitionV33 with _ | g33
          · rw [hv3, hv31, hv32, hv33] at h
            simp at h
          · simp only [Conf.AddUserToGroups, Conf.addUserToGroupsV33, Conf.MergeV33,
              hv3, hv31, hv32, hv33, Option.isSome_some, Option.isSome_none,
              Bool.false_eq_true, if_false, if_true, Option.map_some]
            exact ⟨_, rfl⟩
        · simp only [Conf.AddUserToGroups, Conf.addUserToGroupsV32, Conf.MergeV32,
            hv3, hv31, hv32, Option.isSome_some, Option.isSome_none,
            Bool.false_eq_true, if_false, if_true, Option.map_some]
          exact ⟨_, rfl⟩
      · simp only [Conf.AddUserToGroups, Conf.addUserToGroupsV31, Conf.MergeV31,
          hv3, hv31, Option.isSome_some, Option.isSome_none,
          Bool.false_eq_true, if_false, if_true, Option.map_some]
        exact ⟨_, rfl⟩
    · simp only [Conf.AddUserToGroups, Conf.addUserToGroupsV3, Conf.MergeV3,
        hv3, Option.isSome_some, Option.isSome_none,
        Bool.false_eq_true, if_false, if_true, Option.map_some]
      exact ⟨_, rfl⟩
  · intro k3 k31 k32 k33
    simp [Conf.AddUserToGroups, k3, k31, k32, k33]

/-- Witness for the amended C3: success on a v3.1-only Document, the
recoverable error on an unpopulated one. -/
theorem addUserToGroups_v3_family_witness :
    (∃ c2, Conf.AddUserToGroups { ignitionV31 := some { version := "3.1.0" } }
        "core" ["docker"] = some (Except.ok c2)) ∧
    Conf.AddUserToGroups {} "core" ["docker"]
      = some (Except.error missingAddUserToGroupsMsg) :=
  ⟨(addUserToGroups_v3_family { ignitionV31 := some { version := "3.1.0" } }
      "core" ["docker"]).1 (Or.inr (Or.inl rfl)),
   (addUserToGroups_v3_family {} "core" ["docker"]).2 rfl rfl rfl rfl⟩

/-- A concrete Butane payload. -/
def butaneInput : String := "variant: flatcar\nversion: 1.0.0"

/-- Claim C2 counterexample: the claim states that no operation — in
particular `Render`, for every kind including the Butane kind — modifies
the kind tag or raw text of the `UserData` it is invoked on. Rendering a
Butane `UserData` (with the spec-modelled external translator) returns the
receiver with its kind tag rewritten to the Ignition kind and its raw text
replaced by the translated Ignition bytes, exactly as the source's Butane
arm assigns through the receiver pointer. -/
theorem render_butane_mutates_userdata :
    (UserData.Render specExternals (Butane butaneInput) "qemu").map (fun r => (r.1.kind, r.1.data))
      = some (Kind.kindIgnition, specButaneOutput) ∧
    (Butane butaneInput).kind = Kind.kindButane ∧
    specButaneOutput ≠ butaneInput :=
  ⟨rfl, rfl, by decide⟩

/-- First component of a mapped successful render pair. -/
theorem fst_of_map_pair {u : UserData} {x : Option Conf} {r : UserData × Except String Conf}
    (h : x.map (fun c2 => (u, Except.ok c2)) = some r) : r.1 = u := by
  rcases x with _ | c
  · exact Option.noConfusion h
  · simp only [Option.map_some', Option.some.injEq] at h
    rw [← h]

/-- Claim C2 as amended: `Subst` and `AddKey` return a new `UserData`
preserving the kind tag (and, for `AddKey`, the raw text); `Render` leaves
the `UserData`'s kind tag and raw text unchanged for every kind except
Butane; for the Butane kind, a successful translation makes `Render`
overwrite the raw text with the translated Ignition bytes and set the kind
tag to the Ignition kind, while a failed translation leaves the `UserData`
unchanged. -/
theorem userdata_mutation_and_render (E : Externals) (u : UserData)
    (plat old nw key : String) :
    ((u.Subst old nw).kind = u.kind ∧ (u.Subst old nw).extraKeys = u.extraKeys ∧
     (u.Subst old nw).user = u.user) ∧
    ((u.AddKey key).kind = u.kind ∧ (u.AddKey key).data = u.data ∧
     (u.AddKey key).user = u.user) ∧
    (u.kind ≠ Kind.kindButane → ∀ r, u.Render E plat = some r → r.1 = u) ∧
    (u.kind = Kind.kindButane → ∀ r ignc, u.Render E plat = some r →
       E.butaneTranslateBytes u.data = Except.ok ignc →
       r.1 = { u with data := ignc, kind := Kind.kindIgnition }) ∧
    (u.kind = Kind.kindButane → ∀ r e, u.Render E plat = some r →
       E.butaneTranslateBytes u.data = Except.error e → r.1 = u) := by
  refine ⟨⟨rfl, rfl, rfl⟩, ⟨rfl, rfl, rfl⟩, ?_, ?_, ?_⟩
  · intro hne r hr
    rcases hu : u.kind
    case kindButane => exact absurd hu hne
    case kindEmpty =>
      simp only [UserData.Render, hu] at hr
      exact fst_of_map_pair hr
    case kindScript =>
      simp only [UserData.Render, hu] at hr
      exact fst_of_map_pair hr
    case kindMultipartMime =>
      simp only [UserData.Render, hu] at hr
      exact fst_of_map_pair hr
    case kindCloudConfig =>
      simp only [UserData.Render, hu] at hr
      split at hr
      · simp only [Option.some.injEq] at hr
        rw [← hr]
      · exact fst_of_map_pair hr
    case kindIgnition =>
      simp only [UserData.Render, hu] at hr
      split at hr
      · simp only [Option.some.injEq] at hr
        rw [← hr]
      · exact fst_of_map_pair hr
    case kindContainerLinuxConfig =>
      simp only [UserData.Render, hu] at hr
      split at hr
      · simp only [Option.some.injEq] at hr
        rw [← hr]
      · split at hr
        · simp only [Option.some.injEq] at hr
          rw [← hr]
        · exact fst_of_map_pair hr
  · intro hb r ignc hr hok
    simp only [UserData.Render, hb, hok] at hr
    split at hr
    · simp only [Option.some.injEq] at hr
      rw [← hr]
    · exact fst_of_map_pair hr
  · intro hb r e hr herr
    simp only [UserData.Render, hb, herr] at hr
    simp only [Option.some.injEq] at hr
    rw [← hr]

/-- The pair returned by rendering a concrete script `UserData`. -/
def rScript : UserData × Except String Conf :=
  ({ kind := .kindScript, data := "#!/bin/sh" }, .ok { script := "#!/bin/sh" })

/-- The pair returned by rendering a concrete Butane `UserData` through the
spec-modelled externals. -/
def rButane : UserData × Except String Conf :=
  ({ kind := .kindIgnition, data := specButaneOutput },
   .ok { ignitionV33 := some { version := "3.3.0" } })

/-- Witness for the amended C2 at concrete script and Butane inputs. -/
theorem userdata_mutation_and_render_witness :
    (rScript.1 = Script "#!/bin/sh") ∧
    (rButane.1 = { Butane butaneInput with data := specButaneOutput, kind := Kind.kindIgnition }) :=
  ⟨(userdata_mutation_and_render specExternals (Script "#!/bin/sh") "qemu" "a" "b" "k").2.2.1
      (by decide) rScript rfl,
   (userdata_mutation_and_render specExternals (Butane butaneInput) "qemu" "a" "b" "k").2.2.2.1
      rfl rButane specButaneOutput rfl rfl⟩

/-- A legacy-v1 `Conf` holding the given files in the default root
filesystem. -/
def v1ConfFiles (files : List V1File) : Conf :=
  { ignitionV1 := some { filesystems := [{ files := files, format := "ext4", device := rootDevice }] } }

/-- A v2.0 `Conf` holding the given files. -/
def v2ConfFiles (files : List V2XFile) : Conf := { ignitionV2 := some { files := files } }

/-- A v2.1 `Conf` holding the given files. -/
def v21ConfFiles (files : List V2XFile) : Conf := { ignitionV21 := some { files := files } }

/-- A v2.2 `Conf` holding the given files. -/
def v22ConfFiles (files : List V2XFile) : Conf := { ignitionV22 := some { files := files } }

/-- A v2.3 `Conf` holding the given files. -/
def v23ConfFiles (files : List V2XFile) : Conf := { ignitionV23 := some { files := files } }

/-- A v3.0 `Conf` holding the given files. -/
def v3ConfFiles (files : List V3File) : Conf :=
  { ignitionV3 := some { version := "3.0.0", files := files } }

/-- A v3.1 `Conf` holding the given files. -/
def v31ConfFiles (files : List V3File) : Conf :=
  { ignitionV31 := some { version := "3.1.0", files := files } }

/-- A v3.2 `Conf` holding the given files. -/
def v32ConfFiles (files : List V3File) : Conf :=
  { ignitionV32 := some { version := "3.2.0", files := files } }

/-- A v3.3 `Conf` holding the given files. -/
def v33ConfFiles (files : List V3File) : Conf :=
  { ignitionV33 := some { version := "3.3.0", files := files } }

/-- A cloud-config `Conf` holding the given write-file entries. -/
def ccConfFiles (files : List CCFile) : Conf := { cloudconfig := some { writeFiles := files } }

/-- The v1 file entry produced by `addFileV1`. -/
def v1FileEntry (path contents : String) (mode : Nat) : V1File :=
  { path := path, contents := contents, mode := mode }

/-- The v2.x file entry produced by the `addFileV2x` routines. -/
def v2xFileEntry (path fs contents : String) (mode : Nat) : V2XFile :=
  { filesystem := fs, path := path, contents := dataurlEncode contents, mode := mode }

/-- The v3.x file entry carried by the `addFileV3x` overlays. -/
def v3FileEntry (path contents : String) (mode : Nat) : V3File :=
  { path := path, contents := some (dataurlEncode contents), mode := some mode }

/-- The cloud-config file entry produced by `addFileCloudConfig`. -/
def ccFileEntry (path contents : String) (mode : Nat) : CCFile :=
  { content := contents, owner := "root", path := path, rawFilePermissions := octalPerm mode }

/-- Claim C6: for every declarative variant and for cloud-config, one
`AddFile(path, filesystem, content, mode)` call on a document with no file
entries yields exactly one file entry at the given path carrying the given
content (dataurl-encoded where the variant stores encoded sources), and a
repeated `AddFile` with the same arguments appends a duplicate second entry
— no deduplication or replacement. The four v3.x variants route the entry
through the overlay merge, whose contract concatenates collection fields,
so duplicates accumulate there as well. -/
theorem addFile_appends_per_variant (path fs contents : String) (mode : Nat) :
    (Conf.AddFile { ignitionV1 := some {} } path fs contents mode
      = some (v1ConfFiles [v1FileEntry path contents mode]) ∧
     Conf.AddFile (v1ConfFiles [v1FileEntry path contents mode]) path fs contents mode
      = some (v1ConfFiles [v1FileEntry path contents mode, v1FileEntry path contents mode])) ∧
    (Conf.AddFile (v2ConfFiles []) path fs contents mode
      = some (v2ConfFiles [v2xFileEntry path fs contents mode]) ∧
     Conf.AddFile (v2ConfFiles [v2xFileEntry path fs contents mode]) path fs contents mode
      = some (v2ConfFiles [v2xFileEntry path fs contents mode, v2xFileEntry path fs contents mode])) ∧
    (Conf.AddFile (v21ConfFiles []) path fs contents mode
      = some (v21ConfFiles [v2xFileEntry path fs contents mode]) ∧
     Conf.AddFile (v21ConfFiles [v2xFileEntry path fs contents mode]) path fs contents mode
      = some (v21ConfFiles [v2xFileEntry path fs contents mode, v2xFileEntry path fs contents mode])) ∧
    (Conf.AddFile (v22ConfFiles []) path fs contents mode
      = some (v22ConfFiles [v2xFileEntry path fs contents mode]) ∧
     Conf.AddFile (v22ConfFiles [v2xFileEntry path fs contents mode]) path fs contents mode
      = some (v22ConfFiles [v2xFileEntry path fs contents mode, v2xFileEntry path fs contents mode])) ∧
    (Conf.AddFile (v23ConfFiles []) path fs contents mode
      = some (v23ConfFiles [v2xFileEntry path fs contents mode]) ∧
     Conf.AddFile (v23ConfFiles [v2xFileEntry path fs contents mode]) path fs contents mode
      = some (v23ConfFiles [v2xFileEntry path fs contents mode, v2xFileEntry path fs contents mode])) ∧
    (Conf.AddFile (v3ConfFiles []) path fs contents mode
      = some (v3ConfFiles [v3FileEntry path contents mode]) ∧
     Conf.AddFile (v3ConfFiles [v3FileEntry path contents mode]) path fs contents mode
      = some (v3ConfFiles [v3FileEntry path contents mode, v3FileEntry path contents mode])) ∧
    (Conf.AddFile (v31ConfFiles []) path fs contents mode
      = some (v31ConfFiles [v3FileEntry path contents mode]) ∧
     Conf.AddFile (v31ConfFiles [v3FileEntry path contents mode]) path fs contents mode
      = some (v31ConfFiles [v3FileEntry path contents mode, v3FileEntry path contents mode])) ∧
    (Conf.AddFile (v32ConfFiles []) path fs contents mode
      = some (v32ConfFiles [v3FileEntry path contents mode]) ∧
     Conf.AddFile (v32ConfFiles [v3FileEntry path contents mode]) path fs contents mode
      = some (v32ConfFiles [v3FileEntry path contents mode, v3FileEntry path contents mode])) ∧
    (Conf.AddFile (v33ConfFiles []) path fs contents mode
      = some (v33ConfFiles [v3FileEntry path contents mode]) ∧
     Conf.AddFile (v33ConfFiles [v3FileEntry path contents mode]) path fs contents mode
      = some (v33ConfFiles [v3FileEntry path contents mode, v3FileEntry path contents mode])) ∧
    (Conf.AddFile (ccConfFiles []) path fs contents mode
      = some (ccConfFiles [ccFileEntry path contents mode]) ∧
     Conf.AddFile (ccConfFiles [ccFileEntry path contents mode]) path fs contents mode
      = some (ccConfFiles [ccFileEntry path contents mode, ccFileEntry path contents mode])) :=
  ⟨⟨rfl, rfl⟩, ⟨rfl, rfl⟩, ⟨rfl, rfl⟩, ⟨rfl, rfl⟩, ⟨rfl, rfl⟩,
   ⟨rfl, rfl⟩, ⟨rfl, rfl⟩, ⟨rfl, rfl⟩, ⟨rfl, rfl⟩, ⟨rfl, rfl⟩⟩

/-- Claim C8: the gzip pre-step of classification is total and falls back
on failure, for every gzip decoder, every MIME reader and every byte
sequence: when decoding succeeds, each classification check (multipart,
cloud-config, script) runs on the decompressed bytes; when decoding fails —
at the framing stage or while reading the body — the original bytes are
used unchanged. Classification itself is a total function, so no gzip
error can make it fail. -/
theorem classification_gzip_fallback (gunzip : String → GzResult)
    (readMIMEHeader : String → Option (List (String × String))) (b : String) :
    (∀ d, gunzip b = GzResult.ok d →
      decompressIfGzipped gunzip b = d ∧
      isMultipartMime gunzip readMIMEHeader b = multipartCheck readMIMEHeader d ∧
      isCloudConfig gunzip b = cloudConfigCheck d ∧
      isScript gunzip b = scriptCheck d) ∧
    (gunzip b = GzResult.newReaderErr ∨ gunzip b = GzResult.readErr →
      decompressIfGzipped gunzip b = b ∧
      isMultipartMime gunzip readMIMEHeader b = multipartCheck readMIMEHeader b ∧
      isCloudConfig gunzip b = cloudConfigCheck b ∧
      isScript gunzip b = scriptCheck b) := by
  constructor
  · intro d hd
    refine ⟨?_, ?_, ?_, ?_⟩ <;>
      simp [decompressIfGzipped, isMultipartMime, isCloudConfig, isScript, hd]
  · intro hfail
    rcases hfail with hf | hf <;>
      refine ⟨?_, ?_, ?_, ?_⟩ <;>
        simp [decompressIfGzipped, isMultipartMime, isCloudConfig, isScript, hf]

/-- A decoder that decompresses every payload to a fixed script text. -/
def gzAlwaysScript : String → GzResult := fun _ => GzResult.ok "#!/bin/sh\ntrue"

/-- A decoder that fails at the gzip framing stage on every payload. -/
def gzAlwaysFraming : String → GzResult := fun _ => GzResult.newReaderErr

/-- A MIME reader that never produces a header. -/
def mimeNone : String → Option (List (String × String)) := fun _ => none

/-- Witness for C8: both the successful-decompression branch and the
corrupt-framing fallback branch at concrete inputs. -/
theorem classification_gzip_fallback_witness :
    (decompressIfGzipped gzAlwaysScript "#cloud-config\n" = "#!/bin/sh\ntrue" ∧
     isMultipartMime gzAlwaysScript mimeNone "#cloud-config\n"
       = multipartCheck mimeNone "#!/bin/sh\ntrue" ∧
     isCloudConfig gzAlwaysScript "#cloud-config\n" = cloudConfigCheck "#!/bin/sh\ntrue" ∧
     isScript gzAlwaysScript "#cloud-config\n" = scriptCheck "#!/bin/sh\ntrue") ∧
    (decompressIfGzipped gzAlwaysFraming "#cloud-config\n" = "#cloud-config\n" ∧
     isMultipartMime gzAlwaysFraming mimeNone "#cloud-config\n"
       = multipartCheck mimeNone "#cloud-config\n" ∧
     isCloudConfig gzAlwaysFraming "#cloud-config\n" = cloudConfigCheck "#cloud-config\n" ∧
     isScript gzAlwaysFraming "#cloud-config\n" = scriptCheck "#cloud-config\n") :=
  ⟨(classification_gzip_fallback gzAlwaysScript mimeNone "#cloud-config\n").1
      "#!/bin/sh\ntrue" rfl,
   (classification_gzip_fallback gzAlwaysFraming mimeNone "#cloud-config\n").2
      (Or.inl rfl)⟩

/-- Claim C4: for every declarative payload, `renderIgnition` (the cascade
`Render` runs for the Ignition kind) tries the nine version parsers in
fixed ascending order — v1, v2.0, v2.1, v2.2, v2.3, v3.0, v3.1, v3.2,
v3.3. At each position, success populates exactly that version's variant
and stops the cascade; the unknown-version signal moves on to the next
parser; any other error aborts immediately with that error; exhaustion
yields the unknown-version error. The fourth conjunct ties the cascade to
`Render` on the Ignition kind; the last conjunct is the end-to-end
instance: the payload declaring version 2.2.0 is rejected with the
not-recognized signal by the v1, v2.0 and v2.1 parsers, accepted at v2.2,
and the resulting `Conf` reports `IsIgnition`. -/
theorem renderIgnition_cascade (E : Externals) (data plat : String) (c : Conf) :
    (∀ g, E.parseV1 data = .ok g →
       renderIgnition E data c = .ok { c with ignitionV1 := some g }) ∧
    (∀ e, E.parseV1 data = .err e → renderIgnition E data c = .error e) ∧
    (E.parseV1 data = .errUnknownVersion →
      (∀ g, E.parseV2 data = .ok g →
         renderIgnition E data c = .ok { c with ignitionV2 := some g }) ∧
      (∀ e, E.parseV2 data = .err e → renderIgnition E data c = .error e) ∧
      (E.parseV2 data = .errUnknownVersion →
        (∀ g, E.parseV21 data = .ok g →
           renderIgnition E data c = .ok { c with ignitionV21 := some g }) ∧
        (∀ e, E.parseV21 data = .err e → renderIgnition E data c = .error e) ∧
        (E.parseV21 data = .errUnknownVersion →
          (∀ g, E.parseV22 data = .ok g →
             renderIgnition E data c = .ok { c with ignitionV22 := some g }) ∧
          (∀ e, E.parseV22 data = .err e → renderIgnition E data c = .error e) ∧
          (E.parseV22 data = .errUnknownVersion →
            (∀ g, E.parseV23 data = .ok g →
               renderIgnition E data c = .ok { c with ignitionV23 := some g }) ∧
            (∀ e, E.parseV23 data = .err e → renderIgnition E data c = .error e) ∧
            (E.parseV23 data = .errUnknownVersion →
              (∀ g, E.parseV3 data = .ok g →
                 renderIgnition E data c = .ok { c with ignitionV3 := some g }) ∧
              (∀ e, E.parseV3 data = .err e → renderIgnition E data c = .error e) ∧
              (E.parseV3 data = .errUnknownVersion →
                (∀ g, E.parseV31 data = .ok g →
                   renderIgnition E data c = .ok { c with ignitionV31 := some g }) ∧
                (∀ e, E.parseV31 data = .err e → renderIgnition E data c = .error e) ∧
                (E.parseV31 data = .errUnknownVersion →
                  (∀ g, E.parseV32 data = .ok g →
                     renderIgnition E data c = .ok { c with ignitionV32 := some g }) ∧
                  (∀ e, E.parseV32 data = .err e → renderIgnition E data c = .error e) ∧
                  (E.parseV32 data = .errUnknownVersion →
                    (∀ g, E.parseV33 data = .ok g →
                       renderIgnition E data c = .ok { c with ignitionV33 := some g }) ∧
                    (∀ e, E.parseV33 data = .err e → renderIgnition E data c = .error e) ∧
                    (E.parseV33 data = .errUnknownVersion →
                       renderIgnition E data c = .error errUnknownVersionMsg))))))))) ∧
    (∀ u : UserData, u.kind = Kind.kindIgnition → u.extraKeys = [] →
       u.Render E plat = some (u, renderIgnition E u.data { user := u.user })) ∧
    (specExternals.parseV1 ign22Input = ParseResult.errUnknownVersion ∧
     specExternals.parseV2 ign22Input = ParseResult.errUnknownVersion ∧
     specExternals.parseV21 ign22Input = ParseResult.errUnknownVersion ∧
     specExternals.parseV22 ign22Input = ParseResult.ok {} ∧
     renderIgnition specExternals ign22Input {} = Except.ok { ignitionV22 := some {} } ∧
     Conf.IsIgnition { ignitionV22 := some {} } = true) := by
  refine ⟨?_, ?_, ?_, ?_, ?_⟩
  · intro g h
    simp [renderIgnition, h]
  · intro e h
    simp [renderIgnition, h]
  · intro h1
    refine ⟨?_, ?_, ?_⟩
    · intro g h
      simp [renderIgnition, h1, h]
    · intro e h
      simp [renderIgnition, h1, h]
    · intro h2
      refine ⟨?_, ?_, ?_⟩
      · intro g h
        simp [renderIgnition, h1, h2, h]
      · intro e h
        simp [renderIgnition, h1, h2, h]
      · intro h3
        refine ⟨?_, ?_, ?_⟩
        · intro g h
          simp [renderIgnition, h1, h2, h3, h]
        · intro e h
          simp [renderIgnition, h1, h2, h3, h]
        · intro h4
          refine ⟨?_, ?_, ?_⟩
          · intro g h
            simp [renderIgnition, h1, h2, h3, h4, h]
          · intro e h
            simp [renderIgnition, h1, h2, h3, h4, h]
          · intro h5
            refine ⟨?_, ?_, ?_⟩
            · intro g h
              simp [renderIgnition, h1, h2, h3, h4, h5, h]
            · intro e h
              simp [renderIgnition, h1, h2, h3, h4, h5, h]
            · intro h6
              refine ⟨?_, ?_, ?_⟩
              · intro g h
                simp [renderIgnition, h1, h2, h3, h4, h5, h6, h]
              · intro e h
                simp [renderIgnition, h1, h2, h3, h4, h5, h6, h]
              · intro h7
                refine ⟨?_, ?_, ?_⟩
                · intro g h
                  simp [renderIgnition, h1, h2, h3, h4, h5, h6, h7, h]
                · intro e h
                  simp [renderIgnition, h1, h2, h3, h4, h5, h6, h7, h]
                · intro h8
                  refine ⟨?_, ?_, ?_⟩
                  · intro g h
                    simp [renderIgnition, h1, h2, h3, h4, h5, h6, h7, h8, h]
                  · intro e h
                    simp [renderIgnition, h1, h2, h3, h4, h5, h6, h7, h8, h]
                  · intro h9
                    simp [renderIgnition, h1, h2, h3, h4, h5, h6, h7, h8, h9]
  · intro u hk he
    unfold UserData.Render
    rw [hk, he]
    dsimp only
    cases hri : renderIgnition E u.data { user := u.user } with
    | error e => rfl
    | ok c2 => simp [renderFinish]
  · exact ⟨rfl, rfl, rfl, rfl, rfl, rfl⟩

/-- Witness for C4: the end-to-end 2.2.0 payload, reached by discharging
the unknown-version hypotheses of the first three cascade stages, populates
the v2.2 slot of a `Conf` carrying the target user. -/
theorem renderIgnition_cascade_witness :
    renderIgnition specExternals ign22Input { user := "core" }
      = Except.ok { ignitionV22 := some {}, user := "core" } := by
  have h := renderIgnition_cascade specExternals ign22Input "qemu" { user := "core" }
  exact (((h.2.2.1 rfl).2.2 rfl).2.2 rfl).1 {} rfl
